import Mathlib

/-
  Verification of the phoenix flight-computer core (uorocketry/phoenix).

  This file gives a shallow embedding, in Lean 4, of the parts of the
  program that the verified properties talk about:

  * the DataManager latest-value store (src/phoenix/src/data_manager.rs);
  * the radio telemetry manager (src/phoenix/src/communication.rs);
  * the Madgwick orientation-fusion service (src/phoenix/src/madgwick_service.rs);
  * the SBG raw-record to sensor-sample conversions
    (src/crates/sbg-rs/src/data_conversion.rs);
  * the MS5611 barometer compensation algorithm
    (src/crates/common-arm/src/drivers/ms5611.rs).

  Modelling conventions:
  * Machine integers become Nat or Int; where the Rust code wraps or
    truncates (u8 wrapping_add, as-i32 casts, arithmetic shifts) the
    embedding performs the wrap or floor division explicitly.
  * The message payload enums come from the separate messages crate,
    which is not part of the sources here; their shape is reconstructed
    from how the phoenix code matches on them and from the data-model
    section of the design document, and is marked as such where it occurs.
  * Numeric sensor payloads (f32 or f64 in Rust) are carried opaquely as
    Nat wherever no arithmetic is ever performed on them; the claims being
    checked there only concern routing and validity gating, never the
    numeric value.
  * Stateful methods become functions from the state to (result, new state).
-/

namespace Phoenix

/-! ## The messages model

The Message envelope and its payload enums live in the external messages
crate.  Modelled from the spec: an envelope is a timestamped, node-tagged
container whose payload is one of Sensor, State or Command; the variant
lists below are exactly the constructors that the phoenix sources match
on (data_manager.rs), with payload contents carried opaquely as Nat
where the code never inspects them. -/

/-- Timestamp attached to every envelope (messages::FormattedNaiveDateTime),
carried opaquely. -/
structure FormattedNaiveDateTime where
  t : Nat
deriving DecidableEq, Repr

/-- Logging rate for the radio (messages::command::RadioRate).  Modelled
from the spec: the data manager defaults to the slow rate. -/
inductive RadioRate
  | fast
  | slow
deriving DecidableEq, Repr

/-- Payload of a RadioRateChange command. -/
structure RadioRateChangeData where
  rate : RadioRate
deriving DecidableEq, Repr

/-- Command payloads (messages::command::CommandData).  The variants are
the ones named in data_manager.rs (including its commented-out match). -/
inductive CommandData
  | powerDown (d : Nat)
  | radioRateChange (d : RadioRateChangeData)
  | deployDrogue (d : Nat)
  | deployMain (d : Nat)
deriving DecidableEq, Repr

/-- Vehicle state payload (messages::state::StateData).  Modelled from the
spec: an enumerated vehicle state; its content is opaque to the data
store, so it is carried as an opaque code. -/
structure StateData where
  code : Nat
deriving DecidableEq, Repr

/-- SBG sensor-data variants (messages::sensor::SbgData), exactly the
thirteen constructors matched in DataManager::handle_data. -/
inductive SbgData
  | ekfNavAcc (d : Nat)
  | gpsPosAcc (d : Nat)
  | air (d : Nat)
  | ekfNav1 (d : Nat)
  | ekfNav2 (d : Nat)
  | ekfQuat (d : Nat)
  | gpsVel (d : Nat)
  | gpsVelAcc (d : Nat)
  | imu1 (d : Nat)
  | imu2 (d : Nat)
  | utcTime (d : Nat)
  | gpsPos1 (d : Nat)
  | gpsPos2 (d : Nat)
deriving DecidableEq, Repr

/-- Sensor payloads (messages::sensor::SensorData), exactly the
constructors matched in DataManager::handle_data. -/
inductive SensorData
  | sbgData (d : SbgData)
  | recoverySensing (d : Nat)
  | navPosLlh (d : Nat)
  | resetReason (d : Nat)
deriving DecidableEq, Repr

/-- Envelope payload (messages::Data).  The Sensor and State wrapper
structs of the messages crate are collapsed to their single data field,
which is the only field the phoenix code reads. -/
inductive Data
  | sensor (d : SensorData)
  | state (d : StateData)
  | command (d : CommandData)
deriving DecidableEq, Repr

/-- Message envelope (messages::Message), built by
Message::new(timestamp, node, data) in main.rs. -/
structure Message where
  timestamp : FormattedNaiveDateTime
  node : Nat
  data : Data
deriving DecidableEq, Repr

/-- Reset reason of the microcontroller (stm32h7xx_hal::rcc::ResetReason);
external HAL type, carried opaquely. -/
structure ResetReason where
  code : Nat
deriving DecidableEq, Repr

/-- Opaque stand-in for an f32 value stored but never computed with
(the baro_temperature and baro_pressure fields of the DataManager). -/
structure F32 where
  bits : Nat
deriving DecidableEq, Repr

/-! ## DataManager (src/phoenix/src/data_manager.rs) -/

/-- The DataManager struct: one latest-wins slot per sensor-sample kind,
plus the state, reset-reason, logging-rate and barometer slots. -/
structure DataManager where
  air : Option Message
  ekf_nav_1 : Option Message
  ekf_nav_2 : Option Message
  ekf_nav_acc : Option Message
  ekf_quat : Option Message
  madgwick_quat : Option Message
  imu_1 : Option Message
  imu_2 : Option Message
  utc_time : Option Message
  gps_vel : Option Message
  gps_vel_acc : Option Message
  gps_pos_1 : Option Message
  gps_pos_2 : Option Message
  gps_pos_acc : Option Message
  state : Option StateData
  reset_reason : Option ResetReason
  logging_rate : Option RadioRate
  recovery_sensing : Option Message
  nav_pos_l1h : Option Message
  baro_temperature : Option F32
  baro_pressure : Option F32
deriving DecidableEq, Repr

namespace DataManager

/-- DataManager::new: every slot empty except the logging rate, which
starts slow. -/
def new : DataManager where
  air := none
  ekf_nav_1 := none
  ekf_nav_2 := none
  ekf_nav_acc := none
  ekf_quat := none
  madgwick_quat := none
  imu_1 := none
  imu_2 := none
  utc_time := none
  gps_vel := none
  gps_vel_acc := none
  gps_pos_1 := none
  gps_pos_2 := none
  gps_pos_acc := none
  state := none
  reset_reason := none
  logging_rate := some RadioRate.slow
  recovery_sensing := none
  nav_pos_l1h := none
  baro_temperature := none
  baro_pressure := none

/-- DataManager::get_logging_rate: returns the current rate and re-arms
the slot, defaulting to slow when unset. -/
def get_logging_rate (s : DataManager) : RadioRate × DataManager :=
  match s.logging_rate with
  | some rate => (rate, { s with logging_rate := some rate })
  | none => (RadioRate.slow, { s with logging_rate := some RadioRate.slow })

/-- DataManager::take_sensors: the sixteen sensor slots are taken (read
and simultaneously set to None), in the array order of the source. -/
def take_sensors (s : DataManager) : List (Option Message) × DataManager :=
  ([ s.air, s.ekf_nav_1, s.ekf_nav_2, s.ekf_nav_acc, s.ekf_quat,
     s.madgwick_quat, s.imu_1, s.imu_2, s.utc_time, s.gps_vel,
     s.gps_vel_acc, s.gps_pos_1, s.gps_pos_2, s.gps_pos_acc,
     s.nav_pos_l1h, s.recovery_sensing ],
   { s with
      air := none, ekf_nav_1 := none, ekf_nav_2 := none,
      ekf_nav_acc := none, ekf_quat := none, madgwick_quat := none,
      imu_1 := none, imu_2 := none, utc_time := none, gps_vel := none,
      gps_vel_acc := none, gps_pos_1 := none, gps_pos_2 := none,
      gps_pos_acc := none, nav_pos_l1h := none, recovery_sensing := none })

/-- DataManager::handle_command: only Command payloads act; a PowerDown
command spawns the sleep_system task (an effect outside the DataManager,
reported here as the Boolean component), a RadioRateChange command sets
the logging-rate slot, everything else is ignored.  The Rust method
always returns Ok(()). -/
def handle_command (s : DataManager) (data : Message) : DataManager × Bool :=
  match data.data with
  | Data.command cmd =>
    match cmd with
    | CommandData.powerDown _ => (s, true)
    | CommandData.radioRateChange command_data =>
        ({ s with logging_rate := some command_data.rate }, false)
    | _ => (s, false)
  | _ => (s, false)

/-- DataManager::handle_data: route an incoming envelope into the slot
of its payload kind; sensor reset-reason records and every non-Sensor,
non-State payload are disregarded. -/
def handle_data (s : DataManager) (data : Message) : DataManager :=
  match data.data with
  | Data.sensor sensor =>
    match sensor with
    | SensorData.sbgData sbg_data =>
      match sbg_data with
      | SbgData.ekfNavAcc _ => { s with ekf_nav_acc := some data }
      | SbgData.gpsPosAcc _ => { s with gps_pos_acc := some data }
      | SbgData.air _ => { s with air := some data }
      | SbgData.ekfNav1 _ => { s with ekf_nav_1 := some data }
      | SbgData.ekfNav2 _ => { s with ekf_nav_2 := some data }
      | SbgData.ekfQuat _ => { s with ekf_quat := some data }
      | SbgData.gpsVel _ => { s with gps_vel := some data }
      | SbgData.gpsVelAcc _ => { s with gps_vel_acc := some data }
      | SbgData.imu1 _ => { s with imu_1 := some data }
      | SbgData.imu2 _ => { s with imu_2 := some data }
      | SbgData.utcTime _ => { s with utc_time := some data }
      | SbgData.gpsPos1 _ => { s with gps_pos_1 := some data }
      | SbgData.gpsPos2 _ => { s with gps_pos_2 := some data }
    | SensorData.recoverySensing _ => { s with recovery_sensing := some data }
    | SensorData.navPosLlh _ => { s with nav_pos_l1h := some data }
    | SensorData.resetReason _ => s
  | Data.state st => { s with state := some st }
  | _ => s

/-- DataManager::store_madgwick_result. -/
def store_madgwick_result (s : DataManager) (result : Message) : DataManager :=
  { s with madgwick_quat := some result }

end DataManager

/-! ### Slot bookkeeping used to state the routing claims

These definitions are a second, independent enumeration of the sensor
slots and of which payload kind belongs to which slot; the routing
theorem compares handle_data against them. -/

/-- Names for the sixteen Message-typed sensor slots of the DataManager. -/
inductive SensorSlot
  | air | ekfNav1 | ekfNav2 | ekfNavAcc | ekfQuat | madgwickQuat
  | imu1 | imu2 | utcTime | gpsVel | gpsVelAcc | gpsPos1 | gpsPos2
  | gpsPosAcc | navPosLlh | recoverySensing
deriving DecidableEq, Repr

/-- Project a sensor slot out of a DataManager. -/
def getSensorSlot (s : DataManager) : SensorSlot → Option Message
  | SensorSlot.air => s.air
  | SensorSlot.ekfNav1 => s.ekf_nav_1
  | SensorSlot.ekfNav2 => s.ekf_nav_2
  | SensorSlot.ekfNavAcc => s.ekf_nav_acc
  | SensorSlot.ekfQuat => s.ekf_quat
  | SensorSlot.madgwickQuat => s.madgwick_quat
  | SensorSlot.imu1 => s.imu_1
  | SensorSlot.imu2 => s.imu_2
  | SensorSlot.utcTime => s.utc_time
  | SensorSlot.gpsVel => s.gps_vel
  | SensorSlot.gpsVelAcc => s.gps_vel_acc
  | SensorSlot.gpsPos1 => s.gps_pos_1
  | SensorSlot.gpsPos2 => s.gps_pos_2
  | SensorSlot.gpsPosAcc => s.gps_pos_acc
  | SensorSlot.navPosLlh => s.nav_pos_l1h
  | SensorSlot.recoverySensing => s.recovery_sensing

/-- The slot that an envelope payload belongs to: one sensor slot per
sensor-message kind, the state slot for State payloads, and no slot at
all for Command payloads (handle_data ignores them) and for sensor
reset-reason records (the reset_reason field of the DataManager holds a
HAL ResetReason, not a Message, and is never written by handle_data). -/
inductive Slot
  | sensor (sl : SensorSlot)
  | state
deriving DecidableEq, Repr

/-- Which sensor slot an SBG record kind is stored into. -/
def slotOfSbg : SbgData → SensorSlot
  | SbgData.ekfNavAcc _ => SensorSlot.ekfNavAcc
  | SbgData.gpsPosAcc _ => SensorSlot.gpsPosAcc
  | SbgData.air _ => SensorSlot.air
  | SbgData.ekfNav1 _ => SensorSlot.ekfNav1
  | SbgData.ekfNav2 _ => SensorSlot.ekfNav2
  | SbgData.ekfQuat _ => SensorSlot.ekfQuat
  | SbgData.gpsVel _ => SensorSlot.gpsVel
  | SbgData.gpsVelAcc _ => SensorSlot.gpsVelAcc
  | SbgData.imu1 _ => SensorSlot.imu1
  | SbgData.imu2 _ => SensorSlot.imu2
  | SbgData.utcTime _ => SensorSlot.utcTime
  | SbgData.gpsPos1 _ => SensorSlot.gpsPos1
  | SbgData.gpsPos2 _ => SensorSlot.gpsPos2

/-- The slot matching an envelope payload, when one exists. -/
def slotOf : Data → Option Slot
  | Data.sensor (SensorData.sbgData sbg) => some (Slot.sensor (slotOfSbg sbg))
  | Data.sensor (SensorData.recoverySensing _) => some (Slot.sensor SensorSlot.recoverySensing)
  | Data.sensor (SensorData.navPosLlh _) => some (Slot.sensor SensorSlot.navPosLlh)
  | Data.sensor (SensorData.resetReason _) => none
  | Data.state _ => some Slot.state
  | Data.command _ => none

/-! ## Radio telemetry manager (src/phoenix/src/communication.rs)

Only the pure content of RadioManager::send_message is embedded: the
MAVLink header construction, the sequence-counter update and the
preparation of the fixed 255-byte payload.  The actual serial write and
the mavlink wire encoding are external to the repository; the only
fallible step of send_message is that write (the POSTCARD_MESSAGE
payload itself is a fixed-size array, so its construction cannot fail). -/

/-- MAVLink header as built by send_message (mavlink::MavHeader). -/
structure MavHeader where
  system_id : Nat
  component_id : Nat
  sequence : Nat
deriving DecidableEq, Repr

/-- RadioManager::increment_mav_sequence on the u8 counter: wrapping add
of one, returning the incremented value.  The counter is a u8, so its
value is always below 256 and the wrapping add is addition mod 256.
Result is (returned value, new counter). -/
def increment_mav_sequence (mav_sequence : Nat) : Nat × Nat :=
  let s := (mav_sequence + 1) % 256
  (s, s)

/-- The outer frame prepared by RadioManager::send_message from a
payload byte slice: the header (system_id 1, component_id 1, the
incremented sequence), the fixed 255-byte POSTCARD_MESSAGE payload
(payload truncated to 255 bytes, zero-padded on the right), and the new
counter value.  Bytes are modelled as Nat. -/
def send_message (mav_sequence : Nat) (payload : List Nat) :
    (MavHeader × List Nat) × Nat :=
  let seq := increment_mav_sequence mav_sequence
  let mav_header : MavHeader := { system_id := 1, component_id := 1, sequence := seq.1 }
  let len := min payload.length 255
  let fixed_payload := payload.take 255 ++ List.replicate (255 - len) 0
  ((mav_header, fixed_payload), seq.2)

/-! ## Madgwick orientation service (src/phoenix/src/madgwick_service.rs)

The Marg filter itself comes from the external madgwick crate and works
on f32; the service is embedded parametrically in the scalar type F and
the filter state type M, with the filter's update function supplied as a
parameter.  The claims about the service concern only its routing and
the provenance of the fields it fills in, never the filter arithmetic. -/

/-- Three-component vector as passed to the Marg filter (madgwick::F32x3). -/
structure F32x3 (F : Type) where
  x : F
  y : F
  z : F
deriving DecidableEq, Repr

/-- Model of the external Marg filter: a zero scalar (used for the
all-zero magnetometer input) and the update function, which takes the
filter state and the (mag, gyro, accel) sample and returns the new
filter state together with the quaternion (w, x, y, z). -/
structure MargModel (F M : Type) where
  zero : F
  update : M → F32x3 F → F32x3 F → F32x3 F → M × (F × F × F × F)

/-- EKF status word (messages::sensor_status::EkfStatus), a wrapped u32. -/
structure EkfStatus where
  val : Nat
deriving DecidableEq, Repr

/-- EkfStatus::new. -/
def EkfStatus.new (v : Nat) : EkfStatus := ⟨v⟩

/-- Orientation-quaternion sensor sample (messages::sensor::EkfQuat) as
constructed by process_imu_data; quaternion is an optional [f32; 4],
euler_std_dev an optional [f32; 3]. -/
structure EkfQuatSample (F : Type) where
  time_stamp : Nat
  quaternion : Option (F × F × F × F)
  euler_std_dev : Option (F × F × F)
  status : EkfStatus
deriving DecidableEq, Repr

/-- IMU sensor sample (messages::sensor::Imu) as read by
process_imu_data: accelerometers and gyroscopes are optional [f32; 3]. -/
structure ImuSample (F : Type) where
  time_stamp : Nat
  accelerometers : Option (F × F × F)
  gyroscopes : Option (F × F × F)
deriving DecidableEq, Repr

/-- SBG payload variants of the radio message (messages::sensor::SbgData
as matched in madgwick_service.rs); variants other than Imu and EkfQuat
are never touched by the service and are collapsed into one opaque
constructor. -/
inductive SbgRadio (F : Type)
  | imu (d : ImuSample F)
  | ekfQuat (d : EkfQuatSample F)
  | otherSbg (d : Nat)
deriving DecidableEq, Repr

/-- Radio payload (messages::RadioData as matched in madgwick_service.rs);
non-Sbg payloads are collapsed into one opaque constructor. -/
inductive RadioData (F : Type)
  | sbg (d : SbgRadio F)
  | otherData (d : Nat)
deriving DecidableEq, Repr

/-- Radio message envelope (messages::RadioMessage), built by
RadioMessage::new(timestamp, node, data). -/
structure RadioMessage (F : Type) where
  timestamp : FormattedNaiveDateTime
  node : Nat
  data : RadioData F
deriving DecidableEq, Repr

/-- The MadgwickService state: the filter state, the latest quaternion
and the configuration parameters. -/
structure MadgwickService (F M : Type) where
  madgwick : M
  latest_quat : F × F × F × F
  beta : F
  sample_period : F

/-- MadgwickService::process_imu_data: on an SBG IMU payload whose
accelerometer and gyroscope readings are both present, run one filter
update (with the magnetometer input held at zero), store the updated
quaternion, and wrap it in a new EkfQuat radio message carrying the
source envelope's timestamp and node and the source sample's time stamp,
with euler_std_dev left empty and status set to EkfStatus::new(0);
anything else returns None and leaves the service untouched. -/
def process_imu_data {F M : Type} (mm : MargModel F M)
    (svc : MadgwickService F M) (data : RadioMessage F) :
    Option (RadioMessage F) × MadgwickService F M :=
  match data.data with
  | RadioData.sbg (SbgRadio.imu imu_data) =>
    match imu_data.accelerometers, imu_data.gyroscopes with
    | some accel, some gyro =>
      let mag : F32x3 F := { x := mm.zero, y := mm.zero, z := mm.zero }
      let gyro' : F32x3 F := { x := gyro.1, y := gyro.2.1, z := gyro.2.2 }
      let accel' : F32x3 F := { x := accel.1, y := accel.2.1, z := accel.2.2 }
      let step := mm.update svc.madgwick mag gyro' accel'
      let quat := step.2
      (some { timestamp := data.timestamp
              node := data.node
              data := RadioData.sbg (SbgRadio.ekfQuat
                { time_stamp := imu_data.time_stamp
                  quaternion := some quat
                  euler_std_dev := none
                  status := EkfStatus.new 0 }) },
       { svc with madgwick := step.1, latest_quat := quat })
    | _, _ => (none, svc)
  | _ => (none, svc)

/-! ## SBG record conversion (src/crates/sbg-rs/src/data_conversion.rs)

The raw SbgLog records come from the C bindings and the target sensor
structs and status wrappers from the messages crate; both are outside
the sources here.  The conversion logic itself is in
data_conversion.rs and is embedded faithfully below.  The status
interpretation functions (get_flags, get_status, get_utc_status) and
the bitmask constants of the flag types live in the messages crate, so
the converters are parametric in them; the bitflags contains() test is
the standard one (all bits of the mask set).  Raw numeric payloads are
carried opaquely as Nat. -/

namespace Conv

/-- Interpretation of the external status machinery that the converters
consume: for each flag-carrying status word, the messages crate's
get_flags view of the raw word; for each enumeration-carrying status
word, its decoded enumeration.  All of it is opaque to
data_conversion.rs, which only ever tests the results. -/
structure StatusModel where
  airGetFlags : Nat → Option Nat
  ekfGetFlags : Nat → Option Nat
  imuGetFlags : Nat → Option Nat
  gpsPosGetStatus : Nat → Option Nat
  gpsVelGetStatus : Nat → Option Nat
  utcGetStatus : Nat → Option Nat
  pressureAbsValid : Nat
  altitudeValid : Nat
  pressureDiffValid : Nat
  airspeedValid : Nat
  temperatureValid : Nat
  headingValid : Nat
  velocityValid : Nat
  positionValid : Nat
  attitudeValid : Nat
  accelsInRange : Nat
  gyrosInRange : Nat
  solComputed : Nat
  utcValid : Nat
  utcNoLeapSec : Nat

/-- Bitflags contains(): every bit of the mask is set in the word. -/
def flagsContain (bits test : Nat) : Bool := bits &&& test == test

/-- The check helper of data_conversion.rs: keep the value only when the
flags word is present and contains the tested mask. -/
def check {T : Type} (flags : Option Nat) (test : Nat) (value : T) : Option T :=
  match flags with
  | some x => if flagsContain x test then some value else none
  | _ => none

/-- Whether a flags word is present and asserts a mask; this is the
condition under which check keeps its value. -/
def asserts (flags : Option Nat) (test : Nat) : Bool :=
  match flags with
  | some x => flagsContain x test
  | none => false

/-- Rust bool::then_some. -/
def thenSome {T : Type} (b : Bool) (value : T) : Option T :=
  if b then some value else none

/-- Raw SBG IMU log record (bindings::SbgLogImuData); payload numerics
carried opaquely. -/
structure SbgLogImuData where
  timeStamp : Nat
  status : Nat
  accelerometers : Nat
  gyroscopes : Nat
  temperature : Nat
  deltaVelocity : Nat
  deltaAngle : Nat
deriving DecidableEq, Repr

/-- Converted IMU sample (messages::sensor::Imu). -/
structure Imu where
  time_stamp : Nat
  status : Nat
  accelerometers : Option Nat
  gyroscopes : Option Nat
  temperature : Option Nat
  delta_velocity : Option Nat
  delta_angle : Option Nat
deriving DecidableEq, Repr

/-- From SbgLogImuData for Imu.  The accelerometer and delta-velocity
fields are gated on the AccelsInRange flag, the gyroscope and
delta-angle fields on GyrosInRange; the temperature is stored
unconditionally (the source comments that no flag exists for it). -/
def imuFrom (sm : StatusModel) (value : SbgLogImuData) : Imu :=
  let flags := sm.imuGetFlags value.status
  { time_stamp := value.timeStamp
    status := value.status
    accelerometers := check flags sm.accelsInRange value.accelerometers
    gyroscopes := check flags sm.gyrosInRange value.gyroscopes
    temperature := some value.temperature
    delta_velocity := check flags sm.accelsInRange value.deltaVelocity
    delta_angle := check flags sm.gyrosInRange value.deltaAngle }

/-- Raw SBG air-data log record (bindings::SbgLogAirData). -/
structure SbgLogAirData where
  timeStamp : Nat
  status : Nat
  pressureAbs : Nat
  altitude : Nat
  pressureDiff : Nat
  trueAirspeed : Nat
  airTemperature : Nat
deriving DecidableEq, Repr

/-- Converted air-data sample (messages::sensor::Air). -/
structure Air where
  time_stamp : Nat
  status : Nat
  pressure_abs : Option Nat
  altitude : Option Nat
  pressure_diff : Option Nat
  true_airspeed : Option Nat
  air_temperature : Option Nat
deriving DecidableEq, Repr

/-- From SbgLogAirData for Air: every measurement field is gated on its
own validity flag. -/
def airFrom (sm : StatusModel) (value : SbgLogAirData) : Air :=
  let flags := sm.airGetFlags value.status
  { time_stamp := value.timeStamp
    status := value.status
    pressure_abs := check flags sm.pressureAbsValid value.pressureAbs
    altitude := check flags sm.altitudeValid value.altitude
    pressure_diff := check flags sm.pressureDiffValid value.pressureDiff
    true_airspeed := check flags sm.airspeedValid value.trueAirspeed
    air_temperature := check flags sm.temperatureValid value.airTemperature }

/-- Raw SBG EKF quaternion log record (bindings::SbgLogEkfQuatData). -/
structure SbgLogEkfQuatData where
  timeStamp : Nat
  status : Nat
  quaternion : Nat
  eulerStdDev : Nat
deriving DecidableEq, Repr

/-- Converted EKF quaternion sample (messages::sensor::EkfQuat). -/
structure EkfQuatConv where
  time_stamp : Nat
  status : Nat
  quaternion : Option Nat
  euler_std_dev : Option Nat
deriving DecidableEq, Repr

/-- From SbgLogEkfQuatData for EkfQuat: both fields gated on the
HeadingValid flag. -/
def ekfQuatFrom (sm : StatusModel) (value : SbgLogEkfQuatData) : EkfQuatConv :=
  let flags := sm.ekfGetFlags value.status
  { time_stamp := value.timeStamp
    status := value.status
    quaternion := check flags sm.headingValid value.quaternion
    euler_std_dev := check flags sm.headingValid value.eulerStdDev }

/-- Raw SBG EKF navigation log record (bindings::SbgLogEkfNavData). -/
structure SbgLogEkfNavData where
  timeStamp : Nat
  status : Nat
  velocity : Nat
  velocityStdDev : Nat
  position : Nat
  positionStdDev : Nat
  undulation : Nat
deriving DecidableEq, Repr

/-- Converted EKF navigation sample (messages::sensor::EkfNav). -/
structure EkfNav where
  time_stamp : Nat
  status : Nat
  velocity : Option Nat
  velocity_std_dev : Option Nat
  position : Option Nat
  position_std_dev : Option Nat
  undulation : Option Nat
deriving DecidableEq, Repr

/-- From SbgLogEkfNavData for EkfNav: velocity fields gated on
VelocityValid, position fields on PositionValid, undulation on
AttitudeValid. -/
def ekfNavFrom (sm : StatusModel) (value : SbgLogEkfNavData) : EkfNav :=
  let flags := sm.ekfGetFlags value.status
  { time_stamp := value.timeStamp
    status := value.status
    velocity := check flags sm.velocityValid value.velocity
    velocity_std_dev := check flags sm.velocityValid value.velocityStdDev
    position := check flags sm.positionValid value.position
    position_std_dev := check flags sm.positionValid value.positionStdDev
    undulation := check flags sm.attitudeValid value.undulation }

/-- Raw SBG GPS position log record (bindings::SbgLogGpsPos). -/
structure SbgLogGpsPos where
  timeStamp : Nat
  status : Nat
  timeOfWeek : Nat
  latitude : Nat
  longitude : Nat
  altitude : Nat
  undulation : Nat
  latitudeAccuracy : Nat
  longitudeAccuracy : Nat
  altitudeAccuracy : Nat
  numSvUsed : Nat
  baseStationId : Nat
  differentialAge : Nat
deriving DecidableEq, Repr

/-- Converted GPS position sample (messages::sensor::GpsPos). -/
structure GpsPos where
  time_stamp : Nat
  status : Nat
  time_of_week : Option Nat
  latitude : Option Nat
  longitude : Option Nat
  altitude : Option Nat
  undulation : Option Nat
  latitude_accuracy : Option Nat
  longitude_accuracy : Option Nat
  altitude_accuracy : Option Nat
  num_sv_used : Option Nat
  base_station_id : Option Nat
  differential_age : Option Nat
deriving DecidableEq, Repr

/-- From SbgLogGpsPos for GpsPos: every measurement field is gated on
the decoded status being SolComputed. -/
def gpsPosFrom (sm : StatusModel) (value : SbgLogGpsPos) : GpsPos :=
  let valid := sm.gpsPosGetStatus value.status == some sm.solComputed
  { time_stamp := value.timeStamp
    status := value.status
    time_of_week := thenSome valid value.timeOfWeek
    latitude := thenSome valid value.latitude
    longitude := thenSome valid value.longitude
    altitude := thenSome valid value.altitude
    undulation := thenSome valid value.undulation
    latitude_accuracy := thenSome valid value.latitudeAccuracy
    longitude_accuracy := thenSome valid value.longitudeAccuracy
    altitude_accuracy := thenSome valid value.altitudeAccuracy
    num_sv_used := thenSome valid value.numSvUsed
    base_station_id := thenSome valid value.baseStationId
    differential_age := thenSome valid value.differentialAge }

/-- Raw SBG GPS velocity log record (bindings::SbgLogGpsVel). -/
structure SbgLogGpsVel where
  timeStamp : Nat
  status : Nat
  timeOfWeek : Nat
  velocity : Nat
  velocityAcc : Nat
  course : Nat
  courseAcc : Nat
deriving DecidableEq, Repr

/-- Converted GPS velocity sample (messages::sensor::GpsVel). -/
structure GpsVel where
  time_stamp : Nat
  status : Nat
  time_of_week : Option Nat
  velocity : Option Nat
  velocity_acc : Option Nat
  course : Option Nat
  course_acc : Option Nat
deriving DecidableEq, Repr

/-- From SbgLogGpsVel for GpsVel: every measurement field is gated on
the decoded status being SolComputed. -/
def gpsVelFrom (sm : StatusModel) (value : SbgLogGpsVel) : GpsVel :=
  let valid := sm.gpsVelGetStatus value.status == some sm.solComputed
  { time_stamp := value.timeStamp
    status := value.status
    time_of_week := thenSome valid value.timeOfWeek
    velocity := thenSome valid value.velocity
    velocity_acc := thenSome valid value.velocityAcc
    course := thenSome valid value.course
    course_acc := thenSome valid value.courseAcc }

/-- Raw SBG UTC time log record (bindings::SbgLogUtcData). -/
structure SbgLogUtcData where
  timeStamp : Nat
  status : Nat
  year : Nat
  month : Nat
  day : Nat
  hour : Nat
  minute : Nat
  second : Nat
  nanoSecond : Nat
  gpsTimeOfWeek : Nat
deriving DecidableEq, Repr

/-- Converted UTC time sample (messages::sensor::UtcTime). -/
structure UtcTime where
  time_stamp : Nat
  status : Nat
  year : Option Nat
  month : Option Nat
  day : Option Nat
  hour : Option Nat
  minute : Option Nat
  second : Option Nat
  nano_second : Option Nat
  gps_time_of_week : Option Nat
deriving DecidableEq, Repr

/-- From SbgLogUtcData for UtcTime: every field is gated on the decoded
UTC status being Valid or NoLeapSec. -/
def utcTimeFrom (sm : StatusModel) (value : SbgLogUtcData) : UtcTime :=
  let st := sm.utcGetStatus value.status
  let valid := st == some sm.utcValid || st == some sm.utcNoLeapSec
  { time_stamp := value.timeStamp
    status := value.status
    year := thenSome valid value.year
    month := thenSome valid value.month
    day := thenSome valid value.day
    hour := thenSome valid value.hour
    minute := thenSome valid value.minute
    second := thenSome valid value.second
    nano_second := thenSome valid value.nanoSecond
    gps_time_of_week := thenSome valid value.gpsTimeOfWeek }

end Conv

/-! ## MS5611 barometer compensation
(src/crates/common-arm/src/drivers/ms5611.rs)

Ms5611::calculate_compensated_values works on i64 intermediates; the
embedding uses Int, with the one as-i32 cast of the source performed
explicitly (wrap32) and the arithmetic right shifts of the source
rendered as floor division by powers of two (Lean's Int division by a
positive divisor is floor division).  The bound analysis below shows
the i64 intermediates never overflow for in-range inputs, so Int agrees
with the machine arithmetic there.  The final step of the source
converts the two integer results to f32 and divides by 100.0;
those float values are represented here by the integer centi-degree and
centi-mbar results they are computed from, and the is_finite test on
them is modelled by f32DivHundredFinite below. -/

namespace Baro

/-- Calibration coefficients read from the PROM, six u16 words. -/
structure CalibrationCoefficients where
  c1_sens_t1 : Nat
  c2_off_t1 : Nat
  c3_tcs : Nat
  c4_tco : Nat
  c5_t_ref : Nat
  c6_temp_sens : Nat
deriving DecidableEq, Repr

/-- The MS5611 driver errors (only the variant the compensation code can
produce is relevant here). -/
inductive MsError
  | calculationFault
deriving DecidableEq, Repr

/-- Arithmetic shift right on i64: floor division by a power of two. -/
def asr (x : Int) (k : Nat) : Int := x / (2 ^ k : Int)

/-- The as-i32 cast of the source: wrap into the range of i32. -/
def wrap32 (x : Int) : Int := (x + 2 ^ 31) % 2 ^ 32 - 2 ^ 31

/-- dT = D2 - C5 * 2^8. -/
def dtOf (c : CalibrationCoefficients) (d2_raw : Nat) : Int :=
  (d2_raw : Int) - (c.c5_t_ref : Int) * 2 ^ 8

/-- TEMP = 2000 + dT * C6 / 2^23, cast to i32 (first-order temperature
in 0.01 degC). -/
def tempFirstOrder (c : CalibrationCoefficients) (d2_raw : Nat) : Int :=
  wrap32 (2000 + asr (dtOf c d2_raw * (c.c6_temp_sens : Int)) 23)

/-- OFF = C2 * 2^16 + (C4 * dT) / 2^7. -/
def offOf (c : CalibrationCoefficients) (d2_raw : Nat) : Int :=
  (c.c2_off_t1 : Int) * 2 ^ 16 + asr ((c.c4_tco : Int) * dtOf c d2_raw) 7

/-- SENS = C1 * 2^15 + (C3 * dT) / 2^8. -/
def sensOf (c : CalibrationCoefficients) (d2_raw : Nat) : Int :=
  (c.c1_sens_t1 : Int) * 2 ^ 15 + asr ((c.c3_tcs : Int) * dtOf c d2_raw) 8

/-- Guard of the second-order temperature compensation branch:
the branch body runs exactly when TEMP is strictly below 2000. -/
def secondOrderActive (temp : Int) : Bool := temp < 2000

/-- Guard of the additional low-temperature correction inside the
second-order branch: it runs exactly when TEMP is strictly below -1500. -/
def lowTempCorrectionActive (temp : Int) : Bool := temp < -1500

/-- The second-order correction block of calculate_compensated_values:
from dT and the first-order TEMP, produce (T2, OFF2, SENS2).  Outside
the second-order branch all three are zero; inside it, the additional
low-temperature terms are added when the low-temperature guard holds. -/
def secondOrderCorrection (dt temp : Int) : Int × Int × Int :=
  if secondOrderActive temp then
    let t2 := asr (dt * dt) 31
    let temp_diff_sq := (temp - 2000) * (temp - 2000)
    let off2 := asr (5 * temp_diff_sq) 1
    let sens2 := asr (5 * temp_diff_sq) 2
    if lowTempCorrectionActive temp then
      let temp_low_diff_sq := (temp + 1500) * (temp + 1500)
      (t2, off2 + 7 * temp_low_diff_sq, sens2 + asr (11 * temp_low_diff_sq) 1)
    else
      (t2, off2, sens2)
  else
    (0, 0, 0)

/-- Final compensated temperature in 0.01 degC: TEMP - T2. -/
def tempFinal (c : CalibrationCoefficients) (d2_raw : Nat) : Int :=
  tempFirstOrder c d2_raw -
    (secondOrderCorrection (dtOf c d2_raw) (tempFirstOrder c d2_raw)).1

/-- Final compensated pressure in 0.01 mbar:
P = (D1 * (SENS - SENS2) / 2^21 - (OFF - OFF2)) / 2^15. -/
def pFinal (c : CalibrationCoefficients) (d1_raw d2_raw : Nat) : Int :=
  let corr := secondOrderCorrection (dtOf c d2_raw) (tempFirstOrder c d2_raw)
  let off_compensated := offOf c d2_raw - corr.2.1
  let sens_compensated := sensOf c d2_raw - corr.2.2
  asr (asr ((d1_raw : Int) * sens_compensated) 21 - off_compensated) 15

/-- Model of the is_finite test the source performs on (x as f32) /
100.0 where x is an i64: converting an i64 to f32 always yields a
finite float of magnitude at most 2^63, and dividing a finite f32 of
that magnitude by 100.0 cannot overflow the f32 range (about 3.4e38),
so the float is finite exactly when the integer it came from is in the
i64 range. -/
def f32DivHundredFinite (x : Int) : Bool := x.natAbs ≤ 2 ^ 63

/-- Ms5611::calculate_compensated_values: the two-stage compensation,
returning Ok with the (temperature, pressure) pair when both final
float values are finite and the CalculationFault error otherwise.  The
pair is represented by the integer centi-unit values the floats are
computed from. -/
def calculate_compensated_values (c : CalibrationCoefficients)
    (d1_raw d2_raw : Nat) : Except MsError (Int × Int) :=
  let temp_celsius := tempFinal c d2_raw
  let pressure_mbar := pFinal c d1_raw d2_raw
  if f32DivHundredFinite temp_celsius && f32DivHundredFinite pressure_mbar then
    Except.ok (temp_celsius, pressure_mbar)
  else
    Except.error MsError.calculationFault

end Baro

/-! ## Concrete instances used by the witness theorems -/

/-- A sample sensor envelope carrying an SBG air record. -/
def airMsg : Message :=
  { timestamp := ⟨17⟩, node := 4, data := Data.sensor (SensorData.sbgData (SbgData.air 9)) }

/-- A sample sensor envelope carrying a reset-reason record. -/
def resetReasonMsg : Message :=
  { timestamp := ⟨17⟩, node := 4, data := Data.sensor (SensorData.resetReason 3) }

/-- A sample radio-rate-change command envelope. -/
def rateChangeMsg : Message :=
  { timestamp := ⟨21⟩, node := 4,
    data := Data.command (CommandData.radioRateChange ⟨RadioRate.fast⟩) }

/-- A concrete status model: each get_flags view passes the raw word
through, the enumeration decoders read the word itself, and the masks
are distinct bits. -/
def smEx : Conv.StatusModel where
  airGetFlags := fun s => some s
  ekfGetFlags := fun s => some s
  imuGetFlags := fun s => some s
  gpsPosGetStatus := fun s => some s
  gpsVelGetStatus := fun s => some s
  utcGetStatus := fun s => some s
  pressureAbsValid := 1
  altitudeValid := 2
  pressureDiffValid := 4
  airspeedValid := 8
  temperatureValid := 16
  headingValid := 1
  velocityValid := 2
  positionValid := 4
  attitudeValid := 8
  accelsInRange := 1
  gyrosInRange := 2
  solComputed := 1
  utcValid := 1
  utcNoLeapSec := 2

/-- A raw IMU record whose status word asserts nothing. -/
def imuRecEx : Conv.SbgLogImuData :=
  { timeStamp := 5, status := 0, accelerometers := 11, gyroscopes := 12,
    temperature := 42, deltaVelocity := 13, deltaAngle := 14 }

/-- Calibration coefficients of the MS5611 datasheet worked example. -/
def cDatasheet : Baro.CalibrationCoefficients :=
  { c1_sens_t1 := 40127, c2_off_t1 := 36924, c3_tcs := 23317,
    c4_tco := 23282, c5_t_ref := 33464, c6_temp_sens := 28312 }

/-- Calibration coefficients driving the first-order temperature to
exactly -1500 at a raw temperature reading of zero. -/
def cBoundary : Baro.CalibrationCoefficients :=
  { c1_sens_t1 := 1, c2_off_t1 := 1, c3_tcs := 1,
    c4_tco := 1, c5_t_ref := 65535, c6_temp_sens := 1750 }

/-- Guard under which process_imu_data performs a filter update: the
payload is an SBG IMU sample with both the accelerometer and the
gyroscope reading present (the match guard of the source). -/
def imuSampleReady {F : Type} : RadioData F → Bool
  | RadioData.sbg (SbgRadio.imu i) => i.accelerometers.isSome && i.gyroscopes.isSome
  | _ => false

end Phoenix

namespace Phoenix

/-! ## Theorems -/

/-- C1: take_sensors returns exactly the envelopes held by the sixteen
sensor slots at the moment of the call (in the array order of the
source), leaves every sensor slot empty afterwards, and therefore a
second take_sensors with no intervening handle_data returns an
all-absent array. -/
theorem take_sensors_drains (s : DataManager) :
    (DataManager.take_sensors s).1 =
      [ s.air, s.ekf_nav_1, s.ekf_nav_2, s.ekf_nav_acc, s.ekf_quat,
        s.madgwick_quat, s.imu_1, s.imu_2, s.utc_time, s.gps_vel,
        s.gps_vel_acc, s.gps_pos_1, s.gps_pos_2, s.gps_pos_acc,
        s.nav_pos_l1h, s.recovery_sensing ] ∧
    (∀ sl : SensorSlot, getSensorSlot (DataManager.take_sensors s).2 sl = none) ∧
    (DataManager.take_sensors (DataManager.take_sensors s).2).1 =
      List.replicate 16 none := by
  refine ⟨rfl, ?_, rfl⟩
  intro sl
  cases sl <;> rfl

/-- C5: handle_data routes an incoming envelope into the slot of its
payload kind, overwriting the previous occupant and leaving every other
slot of the DataManager untouched; payload kinds without a slot
(commands, sensor reset-reason records) leave the whole state
unchanged. -/
theorem handle_data_routes (s : DataManager) (m : Message) :
    (∀ sl : SensorSlot, slotOf m.data = some (Slot.sensor sl) →
      getSensorSlot (DataManager.handle_data s m) sl = some m ∧
      (∀ sl2 : SensorSlot, sl2 ≠ sl →
        getSensorSlot (DataManager.handle_data s m) sl2 = getSensorSlot s sl2) ∧
      (DataManager.handle_data s m).state = s.state ∧
      (DataManager.handle_data s m).reset_reason = s.reset_reason ∧
      (DataManager.handle_data s m).logging_rate = s.logging_rate ∧
      (DataManager.handle_data s m).baro_temperature = s.baro_temperature ∧
      (DataManager.handle_data s m).baro_pressure = s.baro_pressure) ∧
    (∀ st : StateData, m.data = Data.state st →
      (DataManager.handle_data s m).state = some st ∧
      (∀ sl2 : SensorSlot,
        getSensorSlot (DataManager.handle_data s m) sl2 = getSensorSlot s sl2) ∧
      (DataManager.handle_data s m).reset_reason = s.reset_reason ∧
      (DataManager.handle_data s m).logging_rate = s.logging_rate ∧
      (DataManager.handle_data s m).baro_temperature = s.baro_temperature ∧
      (DataManager.handle_data s m).baro_pressure = s.baro_pressure) ∧
    (slotOf m.data = none → DataManager.handle_data s m = s) := by
  obtain ⟨ts, nd, d⟩ := m
  refine ⟨?_, ?_, ?_⟩
  · intro sl hsl
    cases d with
    | sensor sd =>
      cases sd with
      | sbgData sbg =>
        cases sbg <;>
          · simp only [slotOf, slotOfSbg, Option.some.injEq, Slot.sensor.injEq] at hsl
            subst hsl
            refine ⟨rfl, ?_, rfl, rfl, rfl, rfl, rfl⟩
            intro sl2 h2
            cases sl2 <;> simp_all [getSensorSlot, DataManager.handle_data]
      | recoverySensing v =>
        simp only [slotOf, Option.some.injEq, Slot.sensor.injEq] at hsl
        subst hsl
        refine ⟨rfl, ?_, rfl, rfl, rfl, rfl, rfl⟩
        intro sl2 h2
        cases sl2 <;> simp_all [getSensorSlot, DataManager.handle_data]
      | navPosLlh v =>
        simp only [slotOf, Option.some.injEq, Slot.sensor.injEq] at hsl
        subst hsl
        refine ⟨rfl, ?_, rfl, rfl, rfl, rfl, rfl⟩
        intro sl2 h2
        cases sl2 <;> simp_all [getSensorSlot, DataManager.handle_data]
      | resetReason v => simp [slotOf] at hsl
    | state st => simp [slotOf] at hsl
    | command cd => simp [slotOf] at hsl
  · intro st hst
    cases d with
    | sensor sd => cases hst
    | state st2 =>
      cases hst
      exact ⟨rfl, fun sl2 => by cases sl2 <;> rfl, rfl, rfl, rfl, rfl⟩
    | command cd => cases hst
  · intro h
    cases d with
    | sensor sd =>
      cases sd with
      | sbgData sbg => cases sbg <;> simp [slotOf, slotOfSbg] at h
      | recoverySensing v => simp [slotOf] at h
      | navPosLlh v => simp [slotOf] at h
      | resetReason v => rfl
    | state st => simp [slotOf] at h
    | command cd => rfl

/-- C5 witness: an air envelope lands in the air slot; a reset-reason
sensor envelope has no slot and leaves a fresh DataManager unchanged. -/
theorem handle_data_routes_witness :
    slotOf airMsg.data = some (Slot.sensor SensorSlot.air) ∧
    getSensorSlot (DataManager.handle_data DataManager.new airMsg) SensorSlot.air
      = some airMsg ∧
    slotOf resetReasonMsg.data = none ∧
    DataManager.handle_data DataManager.new resetReasonMsg = DataManager.new :=
  ⟨rfl,
   ((handle_data_routes DataManager.new airMsg).1 SensorSlot.air rfl).1,
   rfl,
   (handle_data_routes DataManager.new resetReasonMsg).2.2 rfl⟩

/-- C8: handle_command sets the logging-rate slot to the commanded rate
on a radio-rate-change command (touching nothing else), and leaves the
DataManager state entirely unchanged on every envelope whose payload is
not a Command. -/
theorem handle_command_only_commands (s : DataManager) (m : Message) :
    (∀ rc : RadioRateChangeData,
      m.data = Data.command (CommandData.radioRateChange rc) →
      DataManager.handle_command s m =
        ({ s with logging_rate := some rc.rate }, false)) ∧
    ((∀ cd : CommandData, m.data ≠ Data.command cd) →
      DataManager.handle_command s m = (s, false)) := by
  obtain ⟨ts, nd, d⟩ := m
  constructor
  · intro rc hrc
    cases hrc
    rfl
  · intro h
    cases d with
    | sensor sd => rfl
    | state st => rfl
    | command cd => exact absurd rfl (h cd)

/-- C8 witness: a concrete rate-change command sets the logging rate,
and a concrete sensor envelope leaves the state unchanged. -/
theorem handle_command_only_commands_witness :
    rateChangeMsg.data
      = Data.command (CommandData.radioRateChange ⟨RadioRate.fast⟩) ∧
    DataManager.handle_command DataManager.new rateChangeMsg =
      ({ DataManager.new with logging_rate := some RadioRate.fast }, false) ∧
    (∀ cd : CommandData, airMsg.data ≠ Data.command cd) ∧
    DataManager.handle_command DataManager.new airMsg = (DataManager.new, false) := by
  have hnc : ∀ cd : CommandData, airMsg.data ≠ Data.command cd := by
    intro cd h
    simp [airMsg] at h
  exact ⟨rfl,
    (handle_command_only_commands DataManager.new rateChangeMsg).1 ⟨RadioRate.fast⟩ rfl,
    hnc,
    (handle_command_only_commands DataManager.new airMsg).2 hnc⟩

/-- C7: the radio send prepares its frame for every payload length; a
payload longer than 255 bytes is truncated to its first 255 bytes (the
fixed 255-byte frame payload is exactly that prefix) instead of making
the send fail. -/
theorem send_message_truncates (mav_sequence : Nat) (payload : List Nat)
    (h : 255 < payload.length) :
    (send_message mav_sequence payload).1.2 = payload.take 255 ∧
    (send_message mav_sequence payload).1.2.length = 255 := by
  have hmin : min payload.length 255 = 255 := Nat.min_eq_right (Nat.le_of_lt h)
  constructor
  · simp [send_message, hmin]
  · simp [send_message, hmin, List.length_take]
    omega

/-- C7 witness: a 300-byte payload is truncated to its first 255 bytes. -/
theorem send_message_truncates_witness :
    255 < (List.replicate 300 7).length ∧
    ((send_message 0 (List.replicate 300 7)).1.2 = (List.replicate 300 7).take 255 ∧
     (send_message 0 (List.replicate 300 7)).1.2.length = 255) :=
  ⟨by rw [List.length_replicate]; omega,
   send_message_truncates 0 (List.replicate 300 7)
     (by rw [List.length_replicate]; omega)⟩

/-- C9: every send increments the 8-bit MAVLink sequence counter by one
modulo 256 and places the incremented value in the frame header, so two
consecutive sends carry consecutive wrapping sequence numbers, and a
send from counter value 255 carries sequence 0. -/
theorem mav_sequence_increments (mav_sequence : Nat) (p q : List Nat) :
    (send_message mav_sequence p).1.1.sequence = (mav_sequence + 1) % 256 ∧
    (send_message mav_sequence p).2 = (mav_sequence + 1) % 256 ∧
    (send_message (send_message mav_sequence p).2 q).1.1.sequence
      = (mav_sequence + 2) % 256 ∧
    (send_message 255 p).1.1.sequence = 0 := by
  refine ⟨rfl, rfl, ?_, rfl⟩
  show ((mav_sequence + 1) % 256 + 1) % 256 = (mav_sequence + 2) % 256
  omega

/-- C6: on an SBG IMU payload with both the accelerometer and the
gyroscope reading present, process_imu_data emits a new radio message of
orientation-quaternion kind whose quaternion is the filter's updated
quaternion, whose envelope timestamp and node come from the source
envelope and whose sample time stamp comes from the source IMU sample,
with euler_std_dev left absent and the status word set to the empty
EkfStatus::new(0); the stored latest quaternion becomes the updated
quaternion. -/
theorem process_imu_data_output {F M : Type} (mm : MargModel F M)
    (svc : MadgwickService F M) (ts : FormattedNaiveDateTime) (node : Nat)
    (imu : ImuSample F) (a g : F × F × F)
    (ha : imu.accelerometers = some a) (hg : imu.gyroscopes = some g) :
    process_imu_data mm svc
        { timestamp := ts, node := node,
          data := RadioData.sbg (SbgRadio.imu imu) } =
      (some { timestamp := ts, node := node,
              data := RadioData.sbg (SbgRadio.ekfQuat
                { time_stamp := imu.time_stamp
                  quaternion := some (mm.update svc.madgwick
                    ⟨mm.zero, mm.zero, mm.zero⟩
                    ⟨g.1, g.2.1, g.2.2⟩ ⟨a.1, a.2.1, a.2.2⟩).2
                  euler_std_dev := none
                  status := EkfStatus.new 0 }) },
       { svc with
          madgwick := (mm.update svc.madgwick ⟨mm.zero, mm.zero, mm.zero⟩
            ⟨g.1, g.2.1, g.2.2⟩ ⟨a.1, a.2.1, a.2.2⟩).1
          latest_quat := (mm.update svc.madgwick ⟨mm.zero, mm.zero, mm.zero⟩
            ⟨g.1, g.2.1, g.2.2⟩ ⟨a.1, a.2.1, a.2.2⟩).2 }) := by
  simp [process_imu_data, ha, hg]

/-- C6 witness: a concrete run over integer scalars with a unit filter
state. -/
theorem process_imu_data_output_witness :
    (({ time_stamp := 99, accelerometers := some (5, 6, 7),
        gyroscopes := some (8, 9, 10) } : ImuSample Int).accelerometers
      = some (5, 6, 7)) ∧
    (({ time_stamp := 99, accelerometers := some (5, 6, 7),
        gyroscopes := some (8, 9, 10) } : ImuSample Int).gyroscopes
      = some (8, 9, 10)) ∧
    process_imu_data
        (⟨0, fun _ _ _ _ => ((), (1, 2, 3, 4))⟩ : MargModel Int Unit)
        ⟨(), (1, 0, 0, 0), 0, 0⟩
        { timestamp := ⟨3⟩, node := 4,
          data := RadioData.sbg (SbgRadio.imu
            { time_stamp := 99, accelerometers := some (5, 6, 7),
              gyroscopes := some (8, 9, 10) }) } =
      (some { timestamp := ⟨3⟩, node := 4,
              data := RadioData.sbg (SbgRadio.ekfQuat
                { time_stamp := 99
                  quaternion := some ((⟨0, fun _ _ _ _ => ((), (1, 2, 3, 4))⟩ :
                      MargModel Int Unit).update () ⟨0, 0, 0⟩
                      ⟨8, 9, 10⟩ ⟨5, 6, 7⟩).2
                  euler_std_dev := none
                  status := EkfStatus.new 0 }) },
       { madgwick := ((⟨0, fun _ _ _ _ => ((), (1, 2, 3, 4))⟩ :
            MargModel Int Unit).update () ⟨0, 0, 0⟩ ⟨8, 9, 10⟩ ⟨5, 6, 7⟩).1
         latest_quat := ((⟨0, fun _ _ _ _ => ((), (1, 2, 3, 4))⟩ :
            MargModel Int Unit).update () ⟨0, 0, 0⟩ ⟨8, 9, 10⟩ ⟨5, 6, 7⟩).2
         beta := 0
         sample_period := 0 }) :=
  ⟨rfl, rfl,
   process_imu_data_output (⟨0, fun _ _ _ _ => ((), (1, 2, 3, 4))⟩ : MargModel Int Unit)
     ⟨(), (1, 0, 0, 0), 0, 0⟩ ⟨3⟩ 4
     { time_stamp := 99, accelerometers := some (5, 6, 7),
       gyroscopes := some (8, 9, 10) } (5, 6, 7) (8, 9, 10) rfl rfl⟩

/-- C10: on any radio message that is not an SBG IMU sample with both
the accelerometer and the gyroscope readings present, process_imu_data
returns None and leaves the whole service state, in particular the
stored latest quaternion, unchanged. -/
theorem process_imu_data_ignores_non_imu {F M : Type} (mm : MargModel F M)
    (svc : MadgwickService F M) (data : RadioMessage F)
    (h : imuSampleReady data.data = false) :
    process_imu_data mm svc data = (none, svc) := by
  obtain ⟨ts, nd, d⟩ := data
  cases d with
  | sbg sb =>
    cases sb with
    | imu i =>
      simp only [imuSampleReady, Bool.and_eq_false_iff] at h
      cases hacc : i.accelerometers <;> cases hgyr : i.gyroscopes <;>
        simp_all [process_imu_data]
    | ekfQuat q => rfl
    | otherSbg v => rfl
  | otherData v => rfl

/-- C10 witness: a non-SBG payload and an IMU payload missing its
gyroscope reading are both rejected without touching the service. -/
theorem process_imu_data_ignores_non_imu_witness :
    imuSampleReady ((RadioData.otherData 3 : RadioData Int)) = false ∧
    process_imu_data (⟨0, fun _ _ _ _ => ((), (1, 2, 3, 4))⟩ : MargModel Int Unit)
        ⟨(), (1, 0, 0, 0), 0, 0⟩ ⟨⟨3⟩, 4, RadioData.otherData 3⟩
      = (none, ⟨(), (1, 0, 0, 0), 0, 0⟩) ∧
    imuSampleReady (RadioData.sbg (SbgRadio.imu
      ({ time_stamp := 99, accelerometers := some (5, 6, 7),
         gyroscopes := none } : ImuSample Int))) = false ∧
    process_imu_data (⟨0, fun _ _ _ _ => ((), (1, 2, 3, 4))⟩ : MargModel Int Unit)
        ⟨(), (1, 0, 0, 0), 0, 0⟩
        ⟨⟨3⟩, 4, RadioData.sbg (SbgRadio.imu
          { time_stamp := 99, accelerometers := some (5, 6, 7),
            gyroscopes := none })⟩
      = (none, ⟨(), (1, 0, 0, 0), 0, 0⟩) :=
  ⟨rfl,
   process_imu_data_ignores_non_imu _ _ _ rfl,
   rfl,
   process_imu_data_ignores_non_imu _ _ _ rfl⟩

/-- Helper: check returns None whenever the flags word does not assert
the tested mask. -/
theorem check_eq_none_of_not_asserts {T : Type} {flags : Option Nat}
    {test : Nat} (h : Conv.asserts flags test = false) (v : T) :
    Conv.check flags test v = none := by
  cases flags with
  | none => rfl
  | some x =>
    simp only [Conv.asserts] at h
    simp [Conv.check, h]

/-- C2 counterexample: converting a raw IMU record whose status word
asserts nothing (status = 0, so neither the accelerometer nor the
gyroscope validity flag holds) still populates the temperature field
with the raw value: the IMU temperature is copied without any validity
check, contradicting the claim that every optional measurement field is
gated on a validity flag. -/
theorem imu_temperature_populated_without_flag :
    Conv.asserts (smEx.imuGetFlags imuRecEx.status) smEx.accelsInRange = false ∧
    Conv.asserts (smEx.imuGetFlags imuRecEx.status) smEx.gyrosInRange = false ∧
    (Conv.imuFrom smEx imuRecEx).accelerometers = none ∧
    (Conv.imuFrom smEx imuRecEx).gyroscopes = none ∧
    (Conv.imuFrom smEx imuRecEx).temperature = some 42 := by
  refine ⟨rfl, rfl, ?_, ?_, rfl⟩ <;> rfl

/-- C2 amended: in every SBG record conversion, every optional
measurement field except the IMU temperature is absent whenever its
validity condition does not hold (a flag-gated field is None when its
flag is not asserted; a solution-gated field is None when the decoded
status is not the required one); the IMU temperature alone is populated
unconditionally, since the device provides no validity flag for it. -/
theorem conversion_validity_gating (sm : Conv.StatusModel) :
    (∀ v : Conv.SbgLogImuData,
      (Conv.asserts (sm.imuGetFlags v.status) sm.accelsInRange = false →
        (Conv.imuFrom sm v).accelerometers = none ∧
        (Conv.imuFrom sm v).delta_velocity = none) ∧
      (Conv.asserts (sm.imuGetFlags v.status) sm.gyrosInRange = false →
        (Conv.imuFrom sm v).gyroscopes = none ∧
        (Conv.imuFrom sm v).delta_angle = none) ∧
      (Conv.imuFrom sm v).temperature = some v.temperature) ∧
    (∀ v : Conv.SbgLogAirData,
      (Conv.asserts (sm.airGetFlags v.status) sm.pressureAbsValid = false →
        (Conv.airFrom sm v).pressure_abs = none) ∧
      (Conv.asserts (sm.airGetFlags v.status) sm.altitudeValid = false →
        (Conv.airFrom sm v).altitude = none) ∧
      (Conv.asserts (sm.airGetFlags v.status) sm.pressureDiffValid = false →
        (Conv.airFrom sm v).pressure_diff = none) ∧
      (Conv.asserts (sm.airGetFlags v.status) sm.airspeedValid = false →
        (Conv.airFrom sm v).true_airspeed = none) ∧
      (Conv.asserts (sm.airGetFlags v.status) sm.temperatureValid = false →
        (Conv.airFrom sm v).air_temperature = none)) ∧
    (∀ v : Conv.SbgLogEkfQuatData,
      Conv.asserts (sm.ekfGetFlags v.status) sm.headingValid = false →
        (Conv.ekfQuatFrom sm v).quaternion = none ∧
        (Conv.ekfQuatFrom sm v).euler_std_dev = none) ∧
    (∀ v : Conv.SbgLogEkfNavData,
      (Conv.asserts (sm.ekfGetFlags v.status) sm.velocityValid = false →
        (Conv.ekfNavFrom sm v).velocity = none ∧
        (Conv.ekfNavFrom sm v).velocity_std_dev = none) ∧
      (Conv.asserts (sm.ekfGetFlags v.status) sm.positionValid = false →
        (Conv.ekfNavFrom sm v).position = none ∧
        (Conv.ekfNavFrom sm v).position_std_dev = none) ∧
      (Conv.asserts (sm.ekfGetFlags v.status) sm.attitudeValid = false →
        (Conv.ekfNavFrom sm v).undulation = none)) ∧
    (∀ v : Conv.SbgLogGpsPos,
      (sm.gpsPosGetStatus v.status == some sm.solComputed) = false →
        (Conv.gpsPosFrom sm v).time_of_week = none ∧
        (Conv.gpsPosFrom sm v).latitude = none ∧
        (Conv.gpsPosFrom sm v).longitude = none ∧
        (Conv.gpsPosFrom sm v).altitude = none ∧
        (Conv.gpsPosFrom sm v).undulation = none ∧
        (Conv.gpsPosFrom sm v).latitude_accuracy = none ∧
        (Conv.gpsPosFrom sm v).longitude_accuracy = none ∧
        (Conv.gpsPosFrom sm v).altitude_accuracy = none ∧
        (Conv.gpsPosFrom sm v).num_sv_used = none ∧
        (Conv.gpsPosFrom sm v).base_station_id = none ∧
        (Conv.gpsPosFrom sm v).differential_age = none) ∧
    (∀ v : Conv.SbgLogGpsVel,
      (sm.gpsVelGetStatus v.status == some sm.solComputed) = false →
        (Conv.gpsVelFrom sm v).time_of_week = none ∧
        (Conv.gpsVelFrom sm v).velocity = none ∧
        (Conv.gpsVelFrom sm v).velocity_acc = none ∧
        (Conv.gpsVelFrom sm v).course = none ∧
        (Conv.gpsVelFrom sm v).course_acc = none) ∧
    (∀ v : Conv.SbgLogUtcData,
      ((sm.utcGetStatus v.status == some sm.utcValid) ||
       (sm.utcGetStatus v.status == some sm.utcNoLeapSec)) = false →
        (Conv.utcTimeFrom sm v).year = none ∧
        (Conv.utcTimeFrom sm v).month = none ∧
        (Conv.utcTimeFrom sm v).day = none ∧
        (Conv.utcTimeFrom sm v).hour = none ∧
        (Conv.utcTimeFrom sm v).minute = none ∧
        (Conv.utcTimeFrom sm v).second = none ∧
        (Conv.utcTimeFrom sm v).nano_second = none ∧
        (Conv.utcTimeFrom sm v).gps_time_of_week = none) := by
  refine ⟨?_, ?_, ?_, ?_, ?_, ?_, ?_⟩
  · intro v
    exact ⟨fun h => ⟨check_eq_none_of_not_asserts h _, check_eq_none_of_not_asserts h _⟩,
           fun h => ⟨check_eq_none_of_not_asserts h _, check_eq_none_of_not_asserts h _⟩,
           rfl⟩
  · intro v
    exact ⟨fun h => check_eq_none_of_not_asserts h _,
           fun h => check_eq_none_of_not_asserts h _,
           fun h => check_eq_none_of_not_asserts h _,
           fun h => check_eq_none_of_not_asserts h _,
           fun h => check_eq_none_of_not_asserts h _⟩
  · intro v h
    exact ⟨check_eq_none_of_not_asserts h _, check_eq_none_of_not_asserts h _⟩
  · intro v
    exact ⟨fun h => ⟨check_eq_none_of_not_asserts h _, check_eq_none_of_not_asserts h _⟩,
           fun h => ⟨check_eq_none_of_not_asserts h _, check_eq_none_of_not_asserts h _⟩,
           fun h => check_eq_none_of_not_asserts h _⟩
  · intro v h
    simp [Conv.gpsPosFrom, Conv.thenSome, h]
  · intro v h
    simp [Conv.gpsVelFrom, Conv.thenSome, h]
  · intro v h
    simp [Conv.utcTimeFrom, Conv.thenSome, h]

/-- C2 amended witness: with a concrete status model, an IMU record
asserting nothing decodes with absent motion fields but a populated
temperature, and a GPS position record with a status that is not
solution-computed decodes with all measurement fields absent. -/
theorem conversion_validity_gating_witness :
    Conv.asserts (smEx.imuGetFlags imuRecEx.status) smEx.accelsInRange = false ∧
    ((Conv.imuFrom smEx imuRecEx).accelerometers = none ∧
     (Conv.imuFrom smEx imuRecEx).delta_velocity = none) ∧
    (Conv.imuFrom smEx imuRecEx).temperature = some imuRecEx.temperature ∧
    (smEx.gpsPosGetStatus 0 == some smEx.solComputed) = false ∧
    (Conv.gpsPosFrom smEx
      { timeStamp := 1, status := 0, timeOfWeek := 2, latitude := 3,
        longitude := 4, altitude := 5, undulation := 6, latitudeAccuracy := 7,
        longitudeAccuracy := 8, altitudeAccuracy := 9, numSvUsed := 10,
        baseStationId := 11, differentialAge := 12 }).latitude = none := by
  have h := conversion_validity_gating smEx
  refine ⟨rfl, (h.1 imuRecEx).1 rfl, (h.1 imuRecEx).2.2, rfl, ?_⟩
  exact ((h.2.2.2.2.1
    { timeStamp := 1, status := 0, timeOfWeek := 2, latitude := 3,
      longitude := 4, altitude := 5, undulation := 6, latitudeAccuracy := 7,
      longitudeAccuracy := 8, altitudeAccuracy := 9, numSvUsed := 10,
      baseStationId := 11, differentialAge := 12 }) rfl).2.1

/-- C3 counterexample: with coefficients C5 = 65535, C6 = 1750 and a raw
temperature reading D2 = 0, the first-order computed temperature is
exactly -1500, and there the low-temperature branch guard of the
compensation is false: the additional low-temperature correction is NOT
applied at exactly -1500 (the code requires TEMP strictly below -1500),
contrary to the claim.  The correction triple at that point is the plain
second-order one. -/
theorem low_temp_correction_skipped_at_minus_1500 :
    Baro.dtOf cBoundary 0 = -16776960 ∧
    Baro.tempFirstOrder cBoundary 0 = -1500 ∧
    Baro.lowTempCorrectionActive (-1500) = false ∧
    Baro.secondOrderActive (-1500) = true ∧
    Baro.secondOrderCorrection (-16776960) (-1500)
      = (131068, 30625000, 15312500) := by
  refine ⟨by decide, by decide, rfl, rfl, by decide⟩

/-- C3 amended: the second-order correction is applied exactly when the
first-order computed temperature is strictly below 2000 (so at exactly
2000 it is skipped), and the additional low-temperature terms are
applied exactly when that temperature is strictly below -1500 — so at
exactly -1500 the low-temperature branch is skipped, where the extra
terms would in any case contribute zero. -/
theorem second_order_correction_boundaries (dt temp : Int) :
    (2000 ≤ temp → Baro.secondOrderCorrection dt temp = (0, 0, 0)) ∧
    (temp < 2000 → -1500 ≤ temp →
      Baro.secondOrderCorrection dt temp =
        (Baro.asr (dt * dt) 31,
         Baro.asr (5 * ((temp - 2000) * (temp - 2000))) 1,
         Baro.asr (5 * ((temp - 2000) * (temp - 2000))) 2)) ∧
    (temp < -1500 →
      Baro.secondOrderCorrection dt temp =
        (Baro.asr (dt * dt) 31,
         Baro.asr (5 * ((temp - 2000) * (temp - 2000))) 1
           + 7 * ((temp + 1500) * (temp + 1500)),
         Baro.asr (5 * ((temp - 2000) * (temp - 2000))) 2
           + Baro.asr (11 * ((temp + 1500) * (temp + 1500))) 1)) ∧
    (temp = -1500 →
      7 * ((temp + 1500) * (temp + 1500)) = 0 ∧
      Baro.asr (11 * ((temp + 1500) * (temp + 1500))) 1 = 0) := by
  refine ⟨?_, ?_, ?_, ?_⟩
  · intro h
    have h2 : ¬(temp < 2000) := not_lt.2 h
    simp [Baro.secondOrderCorrection, Baro.secondOrderActive, h2]
  · intro h1 h2
    have h3 : ¬(temp < -1500) := not_lt.2 h2
    simp [Baro.secondOrderCorrection, Baro.secondOrderActive,
      Baro.lowTempCorrectionActive, h1, h3]
  · intro h1
    have h2 : temp < 2000 := lt_trans h1 (by norm_num)
    simp [Baro.secondOrderCorrection, Baro.secondOrderActive,
      Baro.lowTempCorrectionActive, h1, h2]
  · intro h
    subst h
    norm_num [Baro.asr]

/-- C3 amended witness: the three boundary regimes evaluated at computed
temperatures 2000, -1500 and -1501. -/
theorem second_order_correction_boundaries_witness :
    ((2000 : Int) ≤ 2000 ∧
      Baro.secondOrderCorrection (-16776960) 2000 = (0, 0, 0)) ∧
    ((-1500 : Int) < 2000 ∧ (-1500 : Int) ≤ -1500 ∧
      Baro.secondOrderCorrection (-16776960) (-1500) =
        (Baro.asr ((-16776960 : Int) * (-16776960)) 31,
         Baro.asr (5 * (((-1500 : Int) - 2000) * ((-1500 : Int) - 2000))) 1,
         Baro.asr (5 * (((-1500 : Int) - 2000) * ((-1500 : Int) - 2000))) 2)) ∧
    ((-1501 : Int) < -1500 ∧
      Baro.secondOrderCorrection (-16776960) (-1501) =
        (Baro.asr ((-16776960 : Int) * (-16776960)) 31,
         Baro.asr (5 * (((-1501 : Int) - 2000) * ((-1501 : Int) - 2000))) 1
           + 7 * (((-1501 : Int) + 1500) * ((-1501 : Int) + 1500)),
         Baro.asr (5 * (((-1501 : Int) - 2000) * ((-1501 : Int) - 2000))) 2
           + Baro.asr (11 * (((-1501 : Int) + 1500) * ((-1501 : Int) + 1500))) 1)) :=
  ⟨⟨le_refl _, (second_order_correction_boundaries (-16776960) 2000).1 (le_refl _)⟩,
   ⟨by norm_num, le_refl _,
    (second_order_correction_boundaries (-16776960) (-1500)).2.1
      (by norm_num) (le_refl _)⟩,
   ⟨by norm_num,
    (second_order_correction_boundaries (-16776960) (-1501)).2.2.1 (by norm_num)⟩⟩

/-! ### Bound analysis for the compensation pipeline

These lemmas bound every intermediate of calculate_compensated_values
for in-range inputs (u16 coefficients, 24-bit ADC words), establishing
that the i64 arithmetic of the source never overflows and that the two
final values are minuscule against the i64 range, so the modelled
is_finite test always passes. -/

/-- Arithmetic shift right is monotone. -/
theorem baro_asr_mono {a b : Int} (k : Nat) (h : a ≤ b) :
    Baro.asr a k ≤ Baro.asr b k :=
  Int.ediv_le_ediv (by positivity) h

/-- Arithmetic shift right of a nonnegative value is nonnegative. -/
theorem baro_asr_nonneg {x : Int} (k : Nat) (h : 0 ≤ x) : 0 ≤ Baro.asr x k :=
  Int.ediv_nonneg h (by positivity)

/-- The as-i32 cast is the identity on values already in i32 range. -/
theorem baro_wrap32_id {x : Int} (h1 : -2147483648 ≤ x)
    (h2 : x < 2147483648) : Baro.wrap32 x = x := by
  have e1 : (2 : Int) ^ 31 = 2147483648 := by norm_num
  have e2 : (2 : Int) ^ 32 = 4294967296 := by norm_num
  simp only [Baro.wrap32, e1, e2]
  omega

/-- Bounds of a product of a bounded integer with a bounded natural. -/
theorem int_mul_nat_bounds {x b : Int} {n : Nat} (lo hi : Int)
    (hlo : lo ≤ x) (hhi : x ≤ hi) (hb : (n : Int) ≤ b)
    (hlo0 : lo ≤ 0) (hhi0 : 0 ≤ hi) :
    lo * b ≤ x * (n : Int) ∧ x * (n : Int) ≤ hi * b := by
  have h0 : (0 : Int) ≤ (n : Int) := Int.natCast_nonneg n
  constructor
  · nlinarith [mul_nonneg (sub_nonneg.2 hlo) h0,
      mul_nonneg (neg_nonneg.2 hlo0) (sub_nonneg.2 hb)]
  · nlinarith [mul_nonneg (sub_nonneg.2 hhi) h0,
      mul_nonneg hhi0 (sub_nonneg.2 hb)]

/-- Bounds of a product of a bounded natural with a bounded integer. -/
theorem nat_mul_int_bounds {y b : Int} {n : Nat} (lo hi : Int)
    (hlo : lo ≤ y) (hhi : y ≤ hi) (hb : (n : Int) ≤ b)
    (hlo0 : lo ≤ 0) (hhi0 : 0 ≤ hi) :
    b * lo ≤ (n : Int) * y ∧ (n : Int) * y ≤ b * hi := by
  have h0 : (0 : Int) ≤ (n : Int) := Int.natCast_nonneg n
  constructor
  · nlinarith [mul_nonneg (sub_nonneg.2 hb) (neg_nonneg.2 hlo0),
      mul_nonneg h0 (sub_nonneg.2 hlo)]
  · nlinarith [mul_nonneg (sub_nonneg.2 hb) hhi0,
      mul_nonneg h0 (sub_nonneg.2 hhi)]

/-- Bounds of dT for a u16 reference coefficient and a 24-bit raw word. -/
theorem baro_dt_bounds (c : Baro.CalibrationCoefficients) (d2_raw : Nat)
    (hc5 : c.c5_t_ref ≤ 65535) (hd2 : d2_raw ≤ 16777215) :
    -16776960 ≤ Baro.dtOf c d2_raw ∧ Baro.dtOf c d2_raw ≤ 16777215 := by
  have e : (2 : Int) ^ 8 = 256 := by norm_num
  simp only [Baro.dtOf, e]
  omega

/-- The first-order temperature stays within a narrow band around zero
for in-range inputs; in particular the as-i32 cast is the identity. -/
theorem baro_temp1_bounds (c : Baro.CalibrationCoefficients) (d2_raw : Nat)
    (hc5 : c.c5_t_ref ≤ 65535) (hc6 : c.c6_temp_sens ≤ 65535)
    (hd2 : d2_raw ≤ 16777215) :
    -129069 ≤ Baro.tempFirstOrder c d2_raw ∧
    Baro.tempFirstOrder c d2_raw ≤ 133069 := by
  obtain ⟨hdt1, hdt2⟩ := baro_dt_bounds c d2_raw hc5 hd2
  have hc6i : (c.c6_temp_sens : Int) ≤ 65535 := by exact_mod_cast hc6
  obtain ⟨hm1, hm2⟩ := int_mul_nat_bounds (-16776960) 16777215 hdt1 hdt2 hc6i
    (by norm_num) (by norm_num)
  norm_num at hm1 hm2
  have ha1 := baro_asr_mono 23 hm1
  have ha2 := baro_asr_mono 23 hm2
  have e1 : Baro.asr (-1099478073600) 23 = -131069 := by decide
  have e2 : Baro.asr (1099494785025 : Int) 23 = 131069 := by decide
  rw [e1] at ha1
  rw [e2] at ha2
  have heq : Baro.tempFirstOrder c d2_raw =
      2000 + Baro.asr (Baro.dtOf c d2_raw * (c.c6_temp_sens : Int)) 23 := by
    simp only [Baro.tempFirstOrder]
    exact baro_wrap32_id (by omega) (by omega)
  rw [heq]
  omega

/-- Bounds of the second-order correction triple for a dT and TEMP in
the ranges established above. -/
theorem baro_corr_bounds {dt temp : Int}
    (hdt1 : -16776960 ≤ dt) (hdt2 : dt ≤ 16777215)
    (ht1 : -129069 ≤ temp) (ht2 : temp ≤ 133069) :
    (0 ≤ (Baro.secondOrderCorrection dt temp).1 ∧
      (Baro.secondOrderCorrection dt temp).1 ≤ 131071) ∧
    (0 ≤ (Baro.secondOrderCorrection dt temp).2.1 ∧
      (Baro.secondOrderCorrection dt temp).2.1 ≤ 156864655229) ∧
    (0 ≤ (Baro.secondOrderCorrection dt temp).2.2 ∧
      (Baro.secondOrderCorrection dt temp).2.2 ≤ 110980027136) := by
  have hsq0 : 0 ≤ dt * dt := mul_self_nonneg dt
  have hsqb : dt * dt ≤ 281474943156225 := by nlinarith
  have ht2a : 0 ≤ Baro.asr (dt * dt) 31 := baro_asr_nonneg 31 hsq0
  have ht2b : Baro.asr (dt * dt) 31 ≤ 131071 := by
    have h := baro_asr_mono 31 hsqb
    have e : Baro.asr (281474943156225 : Int) 31 = 131071 := by decide
    omega
  have htds0 : 0 ≤ (temp - 2000) * (temp - 2000) := mul_self_nonneg _
  have htdsb : (temp - 2000) * (temp - 2000) ≤ 17179082761 := by nlinarith
  have h5a : 0 ≤ Baro.asr (5 * ((temp - 2000) * (temp - 2000))) 1 :=
    baro_asr_nonneg 1 (by linarith)
  have h5b : Baro.asr (5 * ((temp - 2000) * (temp - 2000))) 1 ≤ 42947706902 := by
    have h := baro_asr_mono 1
      (show 5 * ((temp - 2000) * (temp - 2000)) ≤ 85895413805 by linarith)
    have e : Baro.asr (85895413805 : Int) 1 = 42947706902 := by decide
    omega
  have h4a : 0 ≤ Baro.asr (5 * ((temp - 2000) * (temp - 2000))) 2 :=
    baro_asr_nonneg 2 (by linarith)
  have h4b : Baro.asr (5 * ((temp - 2000) * (temp - 2000))) 2 ≤ 21473853451 := by
    have h := baro_asr_mono 2
      (show 5 * ((temp - 2000) * (temp - 2000)) ≤ 85895413805 by linarith)
    have e : Baro.asr (85895413805 : Int) 2 = 21473853451 := by decide
    omega
  by_cases h1 : temp < 2000
  · by_cases h2 : temp < -1500
    · have htl0 : 0 ≤ (temp + 1500) * (temp + 1500) := mul_self_nonneg _
      have htlb : (temp + 1500) * (temp + 1500) ≤ 16273849761 := by nlinarith
      have h11a : 0 ≤ Baro.asr (11 * ((temp + 1500) * (temp + 1500))) 1 :=
        baro_asr_nonneg 1 (by linarith)
      have h11b : Baro.asr (11 * ((temp + 1500) * (temp + 1500))) 1
          ≤ 89506173685 := by
        have h := baro_asr_mono 1
          (show 11 * ((temp + 1500) * (temp + 1500)) ≤ 179012347371 by linarith)
        have e : Baro.asr (179012347371 : Int) 1 = 89506173685 := by decide
        omega
      simp [Baro.secondOrderCorrection, Baro.secondOrderActive,
        Baro.lowTempCorrectionActive, h1, h2]
      refine ⟨⟨ht2a, ht2b⟩, ⟨by linarith, by linarith⟩, ⟨by linarith, by linarith⟩⟩
    · simp [Baro.secondOrderCorrection, Baro.secondOrderActive,
        Baro.lowTempCorrectionActive, h1, h2]
      refine ⟨⟨ht2a, ht2b⟩, ⟨h5a, by linarith⟩, ⟨h4a, by linarith⟩⟩
  · simp [Baro.secondOrderCorrection, Baro.secondOrderActive, h1]

/-- C4: for every in-range input (u16 calibration coefficients, 24-bit
raw ADC words), both final values of the compensation are finite in the
modelled sense, so calculate_compensated_values returns Ok with the
(temperature, pressure) pair and never the calculation-fault error: the
fault arises exactly when a final float value is non-finite, and the
bound analysis shows that cannot happen. -/
theorem calculate_compensated_values_ok (c : Baro.CalibrationCoefficients)
    (d1_raw d2_raw : Nat)
    (hc1 : c.c1_sens_t1 ≤ 65535) (hc2 : c.c2_off_t1 ≤ 65535)
    (hc3 : c.c3_tcs ≤ 65535) (hc4 : c.c4_tco ≤ 65535)
    (hc5 : c.c5_t_ref ≤ 65535) (hc6 : c.c6_temp_sens ≤ 65535)
    (hd1 : d1_raw ≤ 16777215) (hd2 : d2_raw ≤ 16777215) :
    Baro.f32DivHundredFinite (Baro.tempFinal c d2_raw) = true ∧
    Baro.f32DivHundredFinite (Baro.pFinal c d1_raw d2_raw) = true ∧
    Baro.calculate_compensated_values c d1_raw d2_raw =
      Except.ok (Baro.tempFinal c d2_raw, Baro.pFinal c d1_raw d2_raw) := by
  obtain ⟨hdt1, hdt2⟩ := baro_dt_bounds c d2_raw hc5 hd2
  obtain ⟨ht1, ht2⟩ := baro_temp1_bounds c d2_raw hc5 hc6 hd2
  obtain ⟨⟨hA1, hA2⟩, ⟨hB1, hB2⟩, ⟨hC1, hC2⟩⟩ :=
    baro_corr_bounds hdt1 hdt2 ht1 ht2
  -- final temperature bounds
  have htf1 : -260140 ≤ Baro.tempFinal c d2_raw := by
    simp only [Baro.tempFinal]; omega
  have htf2 : Baro.tempFinal c d2_raw ≤ 133069 := by
    simp only [Baro.tempFinal]; omega
  -- OFF bounds
  have hc4i : (c.c4_tco : Int) ≤ 65535 := by exact_mod_cast hc4
  obtain ⟨hm41, hm42⟩ := int_mul_nat_bounds (-16776960) 16777215 hdt1 hdt2 hc4i
    (by norm_num) (by norm_num)
  norm_num at hm41 hm42
  have hm41' : (c.c4_tco : Int) * Baro.dtOf c d2_raw =
      Baro.dtOf c d2_raw * (c.c4_tco : Int) := mul_comm _ _
  have ha71 := baro_asr_mono 7 hm41
  have ha72 := baro_asr_mono 7 hm42
  have e71 : Baro.asr (-1099478073600) 7 = -8589672450 := by decide
  have e72 : Baro.asr (1099494785025 : Int) 7 = 8589803008 := by decide
  rw [e71] at ha71
  rw [e72] at ha72
  have hoff : -8589672450 ≤ Baro.offOf c d2_raw ∧
      Baro.offOf c d2_raw ≤ 12884704768 := by
    have e : (2 : Int) ^ 16 = 65536 := by norm_num
    have hc2i : (c.c2_off_t1 : Int) ≤ 65535 := by exact_mod_cast hc2
    simp only [Baro.offOf, e, hm41']
    omega
  -- SENS bounds
  have hc3i : (c.c3_tcs : Int) ≤ 65535 := by exact_mod_cast hc3
  obtain ⟨hm31, hm32⟩ := int_mul_nat_bounds (-16776960) 16777215 hdt1 hdt2 hc3i
    (by norm_num) (by norm_num)
  norm_num at hm31 hm32
  have hm31' : (c.c3_tcs : Int) * Baro.dtOf c d2_raw =
      Baro.dtOf c d2_raw * (c.c3_tcs : Int) := mul_comm _ _
  have ha81 := baro_asr_mono 8 hm31
  have ha82 := baro_asr_mono 8 hm32
  have e81 : Baro.asr (-1099478073600) 8 = -4294836225 := by decide
  have e82 : Baro.asr (1099494785025 : Int) 8 = 4294901504 := by decide
  rw [e81] at ha81
  rw [e82] at ha82
  have hsens : -4294836225 ≤ Baro.sensOf c d2_raw ∧
      Baro.sensOf c d2_raw ≤ 6442352384 := by
    have e : (2 : Int) ^ 15 = 32768 := by norm_num
    have hc1i : (c.c1_sens_t1 : Int) ≤ 65535 := by exact_mod_cast hc1
    simp only [Baro.sensOf, e, hm31']
    omega
  -- compensated SENS bounds
  have hsc1 : -120000000000 ≤ Baro.sensOf c d2_raw -
      (Baro.secondOrderCorrection (Baro.dtOf c d2_raw)
        (Baro.tempFirstOrder c d2_raw)).2.2 := by omega
  have hsc2 : Baro.sensOf c d2_raw -
      (Baro.secondOrderCorrection (Baro.dtOf c d2_raw)
        (Baro.tempFirstOrder c d2_raw)).2.2 ≤ 6442352384 := by omega
  -- D1 * compensated SENS bounds
  have hd1i : (d1_raw : Int) ≤ 16777215 := by exact_mod_cast hd1
  obtain ⟨hp1, hp2⟩ := nat_mul_int_bounds (-120000000000) 6442352384 hsc1 hsc2
    hd1i (by norm_num) (by norm_num)
  norm_num at hp1 hp2
  have ha211 := baro_asr_mono 21 hp1
  have ha212 := baro_asr_mono 21 hp2
  have e211 : Baro.asr (-2013265800000000000) 21 = -959999942780 := by decide
  have e212 : Baro.asr (108084731052130560 : Int) 21 = 51538816000 := by decide
  rw [e211] at ha211
  rw [e212] at ha212
  -- final pressure bounds
  have hpf : Baro.pFinal c d1_raw d2_raw =
      Baro.asr (Baro.asr ((d1_raw : Int) * (Baro.sensOf c d2_raw -
          (Baro.secondOrderCorrection (Baro.dtOf c d2_raw)
            (Baro.tempFirstOrder c d2_raw)).2.2)) 21 -
        (Baro.offOf c d2_raw -
          (Baro.secondOrderCorrection (Baro.dtOf c d2_raw)
            (Baro.tempFirstOrder c d2_raw)).2.1)) 15 := rfl
  have hdiff1 : -972884647548 ≤ Baro.asr ((d1_raw : Int) *
      (Baro.sensOf c d2_raw - (Baro.secondOrderCorrection (Baro.dtOf c d2_raw)
        (Baro.tempFirstOrder c d2_raw)).2.2)) 21 -
      (Baro.offOf c d2_raw - (Baro.secondOrderCorrection (Baro.dtOf c d2_raw)
        (Baro.tempFirstOrder c d2_raw)).2.1) := by omega
  have hdiff2 : Baro.asr ((d1_raw : Int) *
      (Baro.sensOf c d2_raw - (Baro.secondOrderCorrection (Baro.dtOf c d2_raw)
        (Baro.tempFirstOrder c d2_raw)).2.2)) 21 -
      (Baro.offOf c d2_raw - (Baro.secondOrderCorrection (Baro.dtOf c d2_raw)
        (Baro.tempFirstOrder c d2_raw)).2.1) ≤ 216993143679 := by omega
  have ha151 := baro_asr_mono 15 hdiff1
  have ha152 := baro_asr_mono 15 hdiff2
  have e151 : Baro.asr (-972884647548) 15 = -29690084 := by decide
  have e152 : Baro.asr (216993143679 : Int) 15 = 6622105 := by decide
  rw [e151] at ha151
  rw [e152] at ha152
  rw [← hpf] at ha151 ha152
  -- both finiteness tests pass
  have epow : (2 : Nat) ^ 63 = 9223372036854775808 := by norm_num
  have hfin1 : Baro.f32DivHundredFinite (Baro.tempFinal c d2_raw) = true := by
    simp only [Baro.f32DivHundredFinite, decide_eq_true_eq, epow]
    omega
  have hfin2 : Baro.f32DivHundredFinite (Baro.pFinal c d1_raw d2_raw) = true := by
    simp only [Baro.f32DivHundredFinite, decide_eq_true_eq, epow]
    omega
  refine ⟨hfin1, hfin2, ?_⟩
  simp only [Baro.calculate_compensated_values, hfin1, hfin2, Bool.and_self,
    if_true]

/-- C4 witness: the MS5611 datasheet worked example (C1 = 40127,
C2 = 36924, C3 = 23317, C4 = 23282, C5 = 33464, C6 = 28312,
D1 = 9085466, D2 = 8569150) is in range and the compensation returns
Ok; the resulting pair is (2007, 100009), that is 20.07 degC and
1000.09 mbar. -/
theorem calculate_compensated_values_ok_witness :
    (cDatasheet.c1_sens_t1 ≤ 65535 ∧ cDatasheet.c2_off_t1 ≤ 65535 ∧
     cDatasheet.c3_tcs ≤ 65535 ∧ cDatasheet.c4_tco ≤ 65535 ∧
     cDatasheet.c5_t_ref ≤ 65535 ∧ cDatasheet.c6_temp_sens ≤ 65535 ∧
     9085466 ≤ 16777215 ∧ 8569150 ≤ 16777215) ∧
    Baro.calculate_compensated_values cDatasheet 9085466 8569150 =
      Except.ok (Baro.tempFinal cDatasheet 8569150,
        Baro.pFinal cDatasheet 9085466 8569150) ∧
    Baro.tempFinal cDatasheet 8569150 = 2007 ∧
    Baro.pFinal cDatasheet 9085466 8569150 = 100009 :=
  ⟨⟨by decide, by decide, by decide, by decide, by decide, by decide,
    by decide, by decide⟩,
   (calculate_compensated_values_ok cDatasheet 9085466 8569150
     (by decide) (by decide) (by decide) (by decide) (by decide) (by decide)
     (by decide) (by decide)).2.2,
   by decide, by decide⟩

end Phoenix
